import Mathlib

/-!
Shallow embedding of the oref0 multi-patient server (src/server.js) and the
CLI-style single-shot server (src/unnamed/part_000).

Modelling conventions, fixed for the whole development:
* JS epoch-millisecond values (`g.date`, `new Date(x).getTime()`) are `Int`;
  pump/carb `timestamp` strings are represented by their parsed epoch value
  `timestampMs` (invalid/NaN date strings are not modelled).
* JS numbers used arithmetically (glucose values, rates, ratios) are `Rat`.
* A JS object field that may be `undefined`/`null` is an `Option`.
* The external collaborators (`lib/iob`, `lib/meal`, `lib/glucose-get-last`,
  `lib/determine-basal/determine-basal`, `lib/determine-basal/autosens`) are
  not part of src/; they are parameters (`Collabs`), each returning
  `Except String _` so that a throwing collaborator can be expressed.  The
  suggestion produced by `determine_basal` is treated as an opaque type `σ`.
  The `captureStderr` wrapper around `determine_basal` is folded into the
  collaborator: it returns the pair (result, captured stderr text) or throws.
* `tempBasalFunctions` (a module handle) and the constant `null` reservoir
  argument of `determine_basal` are not passed, being constants.
* The in-memory `patients` store and the process-level `logFileMap`/log files
  are a `ServerState`; wall-clock ISO strings (`new Date().toISOString()`)
  enter as explicit `now`/`ts` arguments.
-/

namespace Oref

/-- A glucose sample: `date` is the epoch-ms ordering key (src/server.js
uses `g.date` for sorting, cleanup and status). -/
structure GlucoseEntry where
  date : Int
  glucose : Rat := 0
  timestamp : Option String := none
  dateString : Option String := none
  deriving DecidableEq

/-- A pump-history event; `timestampMs` models `new Date(p.timestamp).getTime()`. -/
structure PumpEvent where
  timestampMs : Int
  eventType : String := ""
  amount : Rat := 0
  deriving DecidableEq

/-- A carb entry; `timestampMs` models `new Date(c.timestamp).getTime()`. -/
structure CarbEntry where
  timestampMs : Int
  carbs : Rat := 0
  enteredBy : String := ""
  deriving DecidableEq

/-- One entry of a basal schedule (`basalprofile`). -/
structure BasalEntry where
  minutes : Rat := 0
  rate : Option Rat := none
  start : String := "00:00:00"
  i : Nat := 0
  deriving DecidableEq

/-- The algorithm-parameter profile; JS objects may lack any field, hence
every field is optional. -/
structure Profile where
  carb_ratio : Option Rat := none
  sens : Option Rat := none
  dia : Option Rat := none
  max_bg : Option Rat := none
  min_bg : Option Rat := none
  current_basal : Option Rat := none
  max_basal : Option Rat := none
  max_iob : Option Rat := none
  basalprofile : Option (List BasalEntry) := none
  deriving DecidableEq

/-- A temp-basal override. -/
structure TempBasal where
  rate : Option Rat := none
  duration : Rat := 0
  deriving DecidableEq

/-- Session settings after merging with `defaultSettings` in `createPatient`. -/
structure Settings where
  timezone : String := "UTC"
  historyRetentionPeriod : String := "weeks"
  historyRetentionValue : Rat := 1
  autoCleanup : Bool := true
  deriving DecidableEq

/-- Caller-supplied settings (each key optional), merged over the defaults
by `{...defaultSettings, ...settings}`. -/
structure SettingsInput where
  timezone : Option String := none
  historyRetentionPeriod : Option String := none
  historyRetentionValue : Option Rat := none
  autoCleanup : Option Bool := none
  deriving DecidableEq

/-- The three per-session history streams. -/
structure History where
  glucose : List GlucoseEntry := []
  pump : List PumpEvent := []
  carbs : List CarbEntry := []
  deriving DecidableEq

/-- One IOB estimate as produced by the IOB collaborator. -/
structure IOBEntry where
  iob : Rat := 0
  activity : Rat := 0
  deriving DecidableEq

/-- Result shape of the meal collaborator / meal stage. -/
structure MealResult where
  carbs : Rat := 0
  mealCOB : Rat := 0
  reason : Option String := none
  deriving DecidableEq

/-- An autosens result (`{ratio, newisf}`). -/
structure Autosens where
  ratio : Rat := 1
  newisf : Option Rat := none
  deriving DecidableEq

/-- Glucose status as produced by `getLastGlucose`. -/
structure GlucoseStatus where
  glucose : Rat := 0
  delta : Rat := 0
  deriving DecidableEq

/-- The `lastCalculation` snapshot (suggestion type `σ` is opaque). -/
structure LastCalculation (σ : Type) where
  timestamp : Int
  suggestion : σ
  stderrLog : String := ""
  deriving DecidableEq

/-- `patient.currentState`. -/
structure CurrentState (σ : Type) where
  tempBasal : Option TempBasal := none
  lastCalculation : Option (LastCalculation σ) := none
  cachedIOB : Option (List IOBEntry) := none
  cachedMeal : Option MealResult := none
  deriving DecidableEq

/-- A patient session. -/
structure Patient (σ : Type) where
  profile : Profile
  history : History := {}
  currentState : CurrentState σ := {}
  settings : Settings := {}
  createdAt : String := ""
  lastUpdated : String := ""
  deriving DecidableEq

/-- `initialData` of the initialize request. -/
structure InitialData where
  glucoseHistory : Option (List GlucoseEntry) := none
  pumpHistory : Option (List PumpEvent) := none
  carbHistory : Option (List CarbEntry) := none
  currentTempBasal : Option TempBasal := none
  deriving DecidableEq

/-- `newData` of the calculate request; a `none` field models an absent key. -/
structure NewData where
  glucoseReadings : Option (List GlucoseEntry) := none
  pumpEvents : Option (List PumpEvent) := none
  carbEntries : Option (List CarbEntry) := none
  deriving DecidableEq

/-- `Object.keys(newData).length > 0` for the modelled keys. -/
def NewData.hasKeys (nd : NewData) : Bool :=
  nd.glucoseReadings.isSome || nd.pumpEvents.isSome || nd.carbEntries.isSome

/-- Options of the calculate request. -/
structure CalcOptions where
  autosens : Option Autosens := none
  enableAutosens : Option Bool := none
  overrideProfile : Option Profile := none
  microbolus : Option Bool := none
  enableLogging : Option Bool := none
  deriving DecidableEq

/-- Body of `POST /patients/:id/initialize`. -/
structure InitBody where
  profile : Option Profile := none
  initialData : InitialData := {}
  settings : SettingsInput := {}
  deriving DecidableEq

/-- Body of `POST /patients/:id/calculate`. -/
structure CalcBody where
  currentTime : Option Int := none
  newData : NewData := {}
  options : CalcOptions := {}
  deriving DecidableEq

/-- Return bundle of `calculateBasalForPatient`. -/
structure CalcResult (σ : Type) where
  suggestion : σ
  iob : Option IOBEntry
  meal : MealResult
  glucoseStatus : GlucoseStatus
  autosens : Option Autosens
  stderrLog : String
  deriving DecidableEq

/-! ### Sorting (the `array.sort((a, b) => bKey - aKey)` calls)

The JS comparator sorts newest-first.  We model it with an insertion sort
descending by an integer key; what the claims consume is only that the
result is pairwise non-increasing in the key. -/

/-- Insert `x` into a list kept non-increasing by `key`. -/
def insertDescBy (key : α → Int) (x : α) : List α → List α
  | [] => [x]
  | y :: ys => if key y ≤ key x then x :: y :: ys else y :: insertDescBy key x ys

/-- Sort a list non-increasing by `key` (models `sort((a, b) => key b - key a)`). -/
def sortByKeyDesc (key : α → Int) (l : List α) : List α :=
  l.foldr (insertDescBy key) []

/-- The stream invariant: every earlier element's key is ≥ every later one's. -/
def SortedDescBy (key : α → Int) (l : List α) : Prop :=
  l.Pairwise (fun a b => key b ≤ key a)

theorem mem_insertDescBy {key : α → Int} {x z : α} :
    ∀ {l : List α}, z ∈ insertDescBy key x l → z = x ∨ z ∈ l
  | [], h => by simpa [insertDescBy] using h
  | y :: ys, h => by
    rw [insertDescBy] at h
    by_cases hc : key y ≤ key x
    · rw [if_pos hc] at h
      rcases List.mem_cons.mp h with h | h
      · exact Or.inl h
      · exact Or.inr h
    · rw [if_neg hc] at h
      rcases List.mem_cons.mp h with h | h
      · exact Or.inr (by simp [h])
      · rcases mem_insertDescBy h with h' | h'
        · exact Or.inl h'
        · exact Or.inr (List.mem_cons_of_mem _ h')

theorem sortedDescBy_insertDescBy {key : α → Int} {x : α} :
    ∀ {l : List α}, SortedDescBy key l → SortedDescBy key (insertDescBy key x l)
  | [], _ => by simp [SortedDescBy, insertDescBy]
  | y :: ys, h => by
    rw [SortedDescBy, List.pairwise_cons] at h
    obtain ⟨hy, hys⟩ := h
    rw [insertDescBy]
    by_cases hc : key y ≤ key x
    · rw [if_pos hc]
      refine List.pairwise_cons.mpr ⟨?_, List.pairwise_cons.mpr ⟨hy, hys⟩⟩
      intro z hz
      rcases List.mem_cons.mp hz with hz | hz
      · subst hz; exact hc
      · exact le_trans (hy _ hz) hc
    · rw [if_neg hc]
      refine List.pairwise_cons.mpr ⟨?_, sortedDescBy_insertDescBy hys⟩
      intro z hz
      rcases mem_insertDescBy hz with h' | h'
      · subst h'; exact le_of_not_le hc
      · exact hy _ h'

theorem sortedDescBy_sortByKeyDesc (key : α → Int) (l : List α) :
    SortedDescBy key (sortByKeyDesc key l) := by
  induction l with
  | nil => simp [SortedDescBy, sortByKeyDesc]
  | cons x xs ih => exact sortedDescBy_insertDescBy ih

theorem SortedDescBy.filter {key : α → Int} {l : List α}
    (h : SortedDescBy key l) (p : α → Bool) : SortedDescBy key (l.filter p) :=
  List.Pairwise.sublist (List.filter_sublist l) h

/-! ### PatientDataManager (src/server.js lines 116–333) -/

/-- `sortHistoryArrays` (lines 153–165): each stream is sorted newest-first. -/
def sortHistoryArrays (h : History) : History :=
  { glucose := sortByKeyDesc GlucoseEntry.date h.glucose
    pump := sortByKeyDesc PumpEvent.timestampMs h.pump
    carbs := sortByKeyDesc CarbEntry.timestampMs h.carbs }

/-- `{...defaultSettings, ...settings}` in `createPatient` (lines 122–142). -/
def mergeSettings (s : SettingsInput) : Settings :=
  { timezone := s.timezone.getD "UTC"
    historyRetentionPeriod := s.historyRetentionPeriod.getD "weeks"
    historyRetentionValue := s.historyRetentionValue.getD 1
    autoCleanup := s.autoCleanup.getD true }

/-- `PatientDataManager.createPatient` (lines 121–151): builds the session
record (no profile validation) and sorts the history arrays.  `now` is the
wall-clock ISO string used for `createdAt`/`lastUpdated`. -/
def createPatient (σ : Type) (profile : Profile) (initialData : InitialData)
    (settings : SettingsInput) (now : String) : Patient σ :=
  { profile := profile
    history := sortHistoryArrays
      { glucose := initialData.glucoseHistory.getD []
        pump := initialData.pumpHistory.getD []
        carbs := initialData.carbHistory.getD [] }
    currentState :=
      { tempBasal := initialData.currentTempBasal
        lastCalculation := none
        cachedIOB := none
        cachedMeal := none }
    settings := mergeSettings settings
    createdAt := now
    lastUpdated := now }

/-- `Math.max(...keys)` over a non-empty key list (`[]` is unused: the code
guards every call with a non-emptiness check). -/
def streamMax : List Int → Int
  | [] => 0
  | x :: xs => xs.foldl max x

/-- `newestTime` computation of `cleanupOldData` (lines 222–241): starts at 0
and folds in the maximum of each non-empty stream. -/
def newestTimeOf (h : History) : Int :=
  let n0 : Int := 0
  let n1 := if h.glucose.isEmpty then n0
            else max n0 (streamMax (h.glucose.map GlucoseEntry.date))
  let n2 := if h.pump.isEmpty then n1
            else max n1 (streamMax (h.pump.map PumpEvent.timestampMs))
  if h.carbs.isEmpty then n2
  else max n2 (streamMax (h.carbs.map CarbEntry.timestampMs))

/-- Cutoff computation of `cleanupOldData` (lines 246–267): the
`value || 1` / `period || 'weeks'` falsy defaults followed by the unit
switch with an hours fallback. -/
def retentionCutoff (s : Settings) (newestTime : Int) : Rat :=
  let retentionValue : Rat :=
    if s.historyRetentionValue = 0 then 1 else s.historyRetentionValue
  let retentionPeriod : String :=
    if s.historyRetentionPeriod = "" then "weeks" else s.historyRetentionPeriod
  if retentionPeriod = "hours" then (newestTime : Rat) - retentionValue * 3600000
  else if retentionPeriod = "days" then (newestTime : Rat) - retentionValue * 86400000
  else if retentionPeriod = "weeks" then (newestTime : Rat) - retentionValue * 604800000
  else if retentionPeriod = "months" then (newestTime : Rat) - retentionValue * 2592000000
  else (newestTime : Rat) - retentionValue * 3600000

/-- `PatientDataManager.cleanupOldData` (lines 213–295).  The trailing
length-comparison in the source only gates a console message, so it does not
affect the resulting state. -/
def cleanupOldData (p : Patient σ) : Patient σ :=
  if p.history.glucose.isEmpty && p.history.pump.isEmpty && p.history.carbs.isEmpty then p
  else
    let newestTime := newestTimeOf p.history
    if newestTime = 0 then p
    else
      let cutoffTime := retentionCutoff p.settings newestTime
      { p with history :=
          { glucose := p.history.glucose.filter (fun g => cutoffTime ≤ (g.date : Rat))
            pump := p.history.pump.filter (fun e => cutoffTime ≤ (e.timestampMs : Rat))
            carbs := p.history.carbs.filter (fun c => cutoffTime ≤ (c.timestampMs : Rat)) } }

/-- `PatientDataManager.addNewData` (lines 179–211): append the supplied
sequences (glucose readings get `dateString := timestamp`), re-sort, run
cleanup if `autoCleanup`, stamp `lastUpdated`. -/
def addNewData (p : Patient σ) (nd : NewData) (now : String) : Patient σ :=
  let glucose := match nd.glucoseReadings with
    | some rs => p.history.glucose ++ rs.map (fun r => { r with dateString := r.timestamp })
    | none => p.history.glucose
  let pump := match nd.pumpEvents with
    | some es => p.history.pump ++ es
    | none => p.history.pump
  let carbs := match nd.carbEntries with
    | some cs => p.history.carbs ++ cs
    | none => p.history.carbs
  let p := { p with history := sortHistoryArrays { glucose := glucose, pump := pump, carbs := carbs } }
  let p := if p.settings.autoCleanup then cleanupOldData p else p
  { p with lastUpdated := now }

/-- `calculateGlucoseTrend` (lines 326–332). -/
def calculateGlucoseTrend (glucoseHistory : List GlucoseEntry) : Rat :=
  match glucoseHistory with
  | a :: b :: _ => a.glucose - b.glucose
  | _ => 0

/-- Status payload of `getPatientStatus` (lines 298–324). -/
structure PatientStatus where
  lastCalculation : Option Int
  currentIOB : Option Rat
  currentCOB : Option Rat
  lastGlucose : Option (Rat × Int × Rat)
  currentTempBasal : Option TempBasal
  historyCount : Nat × Nat × Nat
  createdAt : String
  lastUpdated : String
  deriving DecidableEq

/-- `PatientDataManager.getPatientStatus` (lines 298–324).
`currentIOB`: `cachedIOB ? cachedIOB[0]?.iob : null`;
`currentCOB`: `cachedMeal?.mealCOB || null` (a falsy `0` becomes `null`). -/
def getPatientStatus (p : Patient σ) : PatientStatus :=
  { lastCalculation := p.currentState.lastCalculation.map (·.timestamp)
    currentIOB := match p.currentState.cachedIOB with
      | none => none
      | some l => l.head?.map (·.iob)
    currentCOB := match p.currentState.cachedMeal with
      | none => none
      | some m => if m.mealCOB = 0 then none else some m.mealCOB
    lastGlucose := p.history.glucose.head?.map
      (fun g => (g.glucose, g.date, calculateGlucoseTrend p.history.glucose))
    currentTempBasal := p.currentState.tempBasal
    historyCount := (p.history.glucose.length, p.history.pump.length, p.history.carbs.length)
    createdAt := p.createdAt
    lastUpdated := p.lastUpdated }

/-! ### Calculation pipeline (src/server.js lines 336–476) and the
CLI-style entry points (src/unnamed/part_000) -/

/-- Inputs object handed to the IOB collaborator (lines 340–349). -/
structure IOBInputs where
  history : List PumpEvent
  history24 : Option Unit := none
  profile : Profile
  clock : Int
  autosens : Option Autosens := none
  deriving DecidableEq

/-- Inputs object handed to the meal collaborator (lines 359–368). -/
structure MealInputs where
  history : List PumpEvent
  profile : Profile
  basalprofile : List BasalEntry
  clock : Int
  carbs : List CarbEntry
  glucose : List GlucoseEntry
  deriving DecidableEq

/-- Inputs object handed to the autosens collaborator (lines 392–406). -/
structure AutosensInputs where
  glucose_data : List GlucoseEntry
  iob_inputs : IOBInputs
  basalprofile : List BasalEntry
  carbs : List CarbEntry
  temptargets : List Unit := []
  retrospective : Bool := false
  deviations : Nat := 96
  deriving DecidableEq

/-- The external collaborators (library code outside src/), as black boxes.
`determine_basal` stands for the `captureStderr`-wrapped call on lines
441–454: it yields the suggestion together with the captured stderr text, or
throws.  The suggestion type `σ` is opaque to the orchestrator. -/
structure Collabs (σ : Type) where
  detectSensitivity : AutosensInputs → Except String Autosens
  generateIOB : IOBInputs → Except String (List IOBEntry)
  generateMeal : MealInputs → Except String MealResult
  getLastGlucose : List GlucoseEntry → Except String (Option GlucoseStatus)
  determine_basal : GlucoseStatus → TempBasal → List IOBEntry → Profile →
    Option Autosens → MealResult → Bool → Int → Except String (σ × String)

/-- The default single-entry basal schedule
`[{ minutes: 0, rate: profile.current_basal, start: "00:00:00", i: 0 }]`
built when the profile carries no `basalprofile`. -/
def defaultBasalProfile (profile : Profile) : List BasalEntry :=
  [{ minutes := 0, rate := profile.current_basal, start := "00:00:00", i := 0 }]

/-- `calculateIOBForPatient` (lines 336–352). -/
def calculateIOBForPatient (c : Collabs σ) (p : Patient σ) (clock : Int)
    (autosensData : Option Autosens) : Except String (List IOBEntry) :=
  c.generateIOB
    { history := p.history.pump
      history24 := none
      profile := p.profile
      clock := clock
      autosens := autosensData }

/-- `calculateMealForPatient` (lines 354–378): delegates to the meal
collaborator, then forces `mealCOB := 0` with an explanatory reason when the
glucose stream has fewer than 36 samples. -/
def calculateMealForPatient (c : Collabs σ) (p : Patient σ) (clock : Int) :
    Except String MealResult :=
  let inputs : MealInputs :=
    { history := p.history.pump
      profile := p.profile
      basalprofile := p.profile.basalprofile.getD (defaultBasalProfile p.profile)
      clock := clock
      carbs := p.history.carbs
      glucose := p.history.glucose }
  match c.generateMeal inputs with
  | .error e => .error e
  | .ok recentCarbs =>
    if p.history.glucose.length < 36 then
      .ok { recentCarbs with
            mealCOB := 0
            reason := some "not enough glucose data to calculate carb absorption" }
    else
      .ok recentCarbs

/-- `calculateAutosensForPatient` (lines 380–409): short-circuits to a
neutral result below 24 glucose samples, otherwise delegates. -/
def calculateAutosensForPatient (c : Collabs σ) (p : Patient σ) (currentTime : Int) :
    Except String Autosens :=
  if p.history.glucose.length < 24 then
    .ok { ratio := 1, newisf := p.profile.sens }
  else
    c.detectSensitivity
      { glucose_data := p.history.glucose
        iob_inputs := { history := p.history.pump, profile := p.profile, clock := currentTime }
        basalprofile := p.profile.basalprofile.getD (defaultBasalProfile p.profile)
        carbs := p.history.carbs
        temptargets := []
        retrospective := false
        deviations := 96 }

/-- `{...patient.profile, ...options.overrideProfile}` (line 435): the
override wins per field; overriding a field to `undefined` is not modelled. -/
def mergeProfile (p : Profile) (patch : Option Profile) : Profile :=
  match patch with
  | none => p
  | some o =>
    { carb_ratio := o.carb_ratio <|> p.carb_ratio
      sens := o.sens <|> p.sens
      dia := o.dia <|> p.dia
      max_bg := o.max_bg <|> p.max_bg
      min_bg := o.min_bg <|> p.min_bg
      current_basal := o.current_basal <|> p.current_basal
      max_basal := o.max_basal <|> p.max_basal
      max_iob := o.max_iob <|> p.max_iob
      basalprofile := o.basalprofile <|> p.basalprofile }

/-- `calculateBasalForPatient` (lines 411–476).  Mirrors the source exactly:
`autosensData` starts as `options.autosens` and is recomputed unless
`options.enableAutosens === false`; `determine_basal` nevertheless receives
`options.autosens` (line 447), not the recomputed value.  The cached fields
are assigned only after every stage has completed. -/
def calculateBasalForPatient (c : Collabs σ) (patient : Patient σ) (currentTime : Int)
    (options : CalcOptions) : Except String (Patient σ × CalcResult σ) :=
  match (if options.enableAutosens ≠ some false then
           (calculateAutosensForPatient c patient currentTime).map some
         else .ok options.autosens : Except String (Option Autosens)) with
  | .error e => .error e
  | .ok autosensData =>
    match calculateIOBForPatient c patient currentTime autosensData with
    | .error e => .error e
    | .ok iobData =>
      match calculateMealForPatient c patient currentTime with
      | .error e => .error e
      | .ok mealData =>
        match c.getLastGlucose patient.history.glucose with
        | .error e => .error e
        | .ok none => .error "No glucose data available for calculation"
        | .ok (some glucoseStatus) =>
          let effectiveProfile := mergeProfile patient.profile options.overrideProfile
          let currentTemp := patient.currentState.tempBasal.getD
            { rate := effectiveProfile.current_basal, duration := 0 }
          match c.determine_basal glucoseStatus currentTemp iobData effectiveProfile
            options.autosens mealData (options.microbolus.getD false) currentTime with
          | .error e => .error e
          | .ok (suggestion, stderrOutput) =>
            .ok ({ patient with currentState :=
                    { patient.currentState with
                      cachedIOB := some iobData
                      cachedMeal := some mealData
                      lastCalculation := some
                        { timestamp := currentTime
                          suggestion := suggestion
                          stderrLog := stderrOutput } } },
                 { suggestion := suggestion
                   iob := iobData.head?
                   meal := mealData
                   glucoseStatus := glucoseStatus
                   autosens := autosensData
                   stderrLog := stderrOutput })

/-- Rendering of `profile_data.carb_ratio` inside the oref0_meal template
string: JS prints `undefined` for a missing field; numbers are rendered by
`Rat`'s `toString`. -/
def ratioRepr : Option Rat → String
  | none => "undefined"
  | some r => toString r

/-- `oref0_meal` of src/unnamed/part_000 (lines 222–263): guards on
`carb_ratio` undefined or < 3 before invoking the collaborator, throws on an
empty basal profile, then applies the same <36-samples degradation.  The
argument-order probe (`basalprofile_data[0].glucose !== undefined`) cannot
fire in this typed embedding, since a `BasalEntry` carries no glucose field. -/
def oref0_meal (c : Collabs σ) (pumphistory : List PumpEvent) (profile : Profile)
    (clock : Int) (glucose : List GlucoseEntry) (basalprofile : List BasalEntry)
    (carbs : List CarbEntry) : Except String MealResult :=
  if (match profile.carb_ratio with | none => true | some r => decide (r < 3)) then
    .ok { carbs := 0
          mealCOB := 0
          reason := some ("carb_ratio " ++ ratioRepr profile.carb_ratio ++ " out of bounds") }
  else if basalprofile.isEmpty then
    .error "Error: bad basalprofile_data"
  else
    match c.generateMeal
      { history := pumphistory
        profile := profile
        basalprofile := basalprofile
        clock := clock
        carbs := carbs
        glucose := glucose } with
    | .error e => .error e
    | .ok recentCarbs =>
      if glucose.length < 36 then
        .ok { recentCarbs with
              mealCOB := 0
              reason := some "not enough glucose data to calculate carb absorption" }
      else
        .ok recentCarbs

/-! ### Process state, audit logging and HTTP endpoints
(src/server.js lines 23–27, 55–113, 481–562, 674–692) -/

/-- Process-wide server state: the in-memory `patients` map, the
`logFileMap`, and the log directory contents.  `files` maps a file name to
the number of appended entries; a pair being present models
`fs.existsSync` returning true (pre-existing files enter with count 0). -/
structure ServerState (σ : Type) where
  patients : String → Option (Patient σ)
  logFileMap : String → Option String
  files : List (String × Nat)

/-- `fs.existsSync(logFilePath)` for the modelled directory. -/
def fsExists (files : List (String × Nat)) (name : String) : Bool :=
  files.any (fun f => f.1 = name)

/-- `fs.appendFileSync`: creates the file if absent, appends one entry. -/
def bumpFile : List (String × Nat) → String → List (String × Nat)
  | [], name => [(name, 1)]
  | f :: rest, name =>
    if f.1 = name then (f.1, f.2 + 1) :: rest else f :: bumpFile rest name

/-- The canonical log file name for a patient id (line 68). -/
def canonicalLogName (patientId : String) : String :=
  patientId ++ "_calculations.log"

/-- The timestamp-suffixed fallback name (lines 74–76); `ts` models the
sanitized ISO timestamp of the moment of binding. -/
def suffixedLogName (patientId ts : String) : String :=
  patientId ++ "_calculations_" ++ ts ++ ".log"

/-- `saveCalculationLog` (lines 56–113): resolve the id's bound file name,
binding it on first use (canonical, or the `ts`-suffixed variant when the
canonical name already exists), then append.  Returns the resolved name.
The entry text itself is not modelled (only the append count). -/
def saveCalculationLog (st : ServerState σ) (patientId ts : String) :
    ServerState σ × String :=
  match st.logFileMap patientId with
  | some name => ({ st with files := bumpFile st.files name }, name)
  | none =>
    let canonical := canonicalLogName patientId
    let name := if fsExists st.files canonical then suffixedLogName patientId ts
                else canonical
    ({ st with
        logFileMap := fun i => if i = patientId then some name else st.logFileMap i
        files := bumpFile st.files name }, name)

/-- HTTP responses of the modelled endpoints. -/
inductive HttpResponse (σ : Type) where
  | ok (result : CalcResult σ)
  | okMsg (msg : String)
  | created (patientId : String)
  | badRequest (msg : String)
  | notFound
  | serverError (msg : String)

/-- The numeric status code of a response. -/
def HttpResponse.status : HttpResponse σ → Nat
  | .ok _ => 200
  | .okMsg _ => 200
  | .created _ => 201
  | .badRequest _ => 400
  | .notFound => 404
  | .serverError _ => 500

/-- `POST /patients/:patientId/initialize` (lines 481–502): rejects a
missing profile with 400, otherwise creates/replaces the session wholesale
via `createPatient` — no further validation happens. -/
def initializeEndpoint (st : ServerState σ) (patientId : String) (body : InitBody)
    (now : String) : ServerState σ × HttpResponse σ :=
  match body.profile with
  | none => (st, .badRequest "Profile is required")
  | some profile =>
    let p := createPatient σ profile body.initialData body.settings now
    ({ st with patients := fun i => if i = patientId then some p else st.patients i },
     .created patientId)

/-- `POST /patients/:patientId/calculate` (lines 505–562): 404 on unknown
id, 400 on missing `currentTime`; ingests `newData` when it has keys; runs
the pipeline (its try/catch is commented out in the source, so a throw
becomes the error middleware's 500 and leaves the post-ingest state); on
success commits the updated session and, unless `enableLogging === false`,
appends an audit record. -/
def calculateEndpoint (c : Collabs σ) (st : ServerState σ) (patientId : String)
    (body : CalcBody) (now ts : String) : ServerState σ × HttpResponse σ :=
  match st.patients patientId with
  | none => (st, .notFound)
  | some patient =>
    match body.currentTime with
    | none => (st, .badRequest "currentTime is required")
    | some currentTime =>
      let patient1 := if body.newData.hasKeys then addNewData patient body.newData now
                      else patient
      let st1 := if body.newData.hasKeys then
                   { st with patients := fun i => if i = patientId then some patient1
                                                  else st.patients i }
                 else st
      match calculateBasalForPatient c patient1 currentTime body.options with
      | .error e => (st1, .serverError e)
      | .ok (patient', result) =>
        let st2 := { st1 with patients := fun i => if i = patientId then some patient'
                                                    else st1.patients i }
        let st3 := if body.options.enableLogging ≠ some false then
                     (saveCalculationLog st2 patientId ts).1
                   else st2
        (st3, .ok result)

/-- `DELETE /patients/:patientId` (lines 674–692): removes the session from
the store only; `logFileMap` and the log files are untouched. -/
def deleteEndpoint (st : ServerState σ) (patientId : String) :
    ServerState σ × HttpResponse σ :=
  match st.patients patientId with
  | none => (st, .notFound)
  | some _ =>
    ({ st with patients := fun i => if i = patientId then none else st.patients i },
     .okMsg "Patient deleted successfully")

/-! ### Operation sequences over the process state -/

/-- One request processed by the server within a single process run. -/
inductive ServerOp where
  | initOp (patientId : String) (body : InitBody) (now : String)
  | calcOp (patientId : String) (body : CalcBody) (now ts : String)
  | delOp (patientId : String)

/-- The state transition of one request. -/
def stepOp (c : Collabs σ) (st : ServerState σ) : ServerOp → ServerState σ
  | .initOp pid body now => (initializeEndpoint st pid body now).1
  | .calcOp pid body now ts => (calculateEndpoint c st pid body now ts).1
  | .delOp pid => (deleteEndpoint st pid).1

/-- Fold a request sequence over the process state. -/
def runOps (c : Collabs σ) (st : ServerState σ) : List ServerOp → ServerState σ
  | [] => st
  | op :: ops => runOps c (stepOp c st op) ops

/-! ### Shared invariant lemmas -/

theorem calcBasal_ok_inv {c : Collabs σ} {p p' : Patient σ} {r : CalcResult σ}
    {t : Int} {o : CalcOptions} (h : calculateBasalForPatient c p t o = .ok (p', r)) :
    p'.history = p.history ∧ p'.profile = p.profile ∧ p'.settings = p.settings ∧
    p'.createdAt = p.createdAt ∧ p'.lastUpdated = p.lastUpdated ∧
    p'.currentState.tempBasal = p.currentState.tempBasal := by
  unfold calculateBasalForPatient at h
  repeat' split at h
  all_goals first
    | exact Except.noConfusion h
    | (dsimp only at h
       split at h
       · exact Except.noConfusion h
       · injection h with h'
         injection h' with h1 h2
         subst h1
         exact ⟨rfl, rfl, rfl, rfl, rfl, rfl⟩)

theorem cleanupOldData_currentState (p : Patient σ) :
    (cleanupOldData p).currentState = p.currentState := by
  unfold cleanupOldData
  dsimp only
  split
  · rfl
  · split
    · rfl
    · rfl

theorem addNewData_currentState (p : Patient σ) (nd : NewData) (now : String) :
    (addNewData p nd now).currentState = p.currentState := by
  unfold addNewData
  dsimp only
  split
  · exact cleanupOldData_currentState _
  · rfl

theorem saveCalculationLog_patients (st : ServerState σ) (pid ts : String) :
    (saveCalculationLog st pid ts).1.patients = st.patients := by
  unfold saveCalculationLog
  split
  all_goals rfl

theorem saveCalculationLog_preserves_binding {st : ServerState σ} {pid name : String}
    (pid2 ts : String) (h : st.logFileMap pid = some name) :
    (saveCalculationLog st pid2 ts).1.logFileMap pid = some name := by
  unfold saveCalculationLog
  cases h2 : st.logFileMap pid2 with
  | some n => simpa using h
  | none =>
    by_cases he : pid = pid2
    · subst he; rw [h] at h2; cases h2
    · simpa [he] using h

theorem calculateEndpoint_preserves_binding {c : Collabs σ} {st : ServerState σ}
    {pid name : String} (pid2 : String) (body : CalcBody) (now ts : String)
    (h : st.logFileMap pid = some name) :
    (calculateEndpoint c st pid2 body now ts).1.logFileMap pid = some name := by
  unfold calculateEndpoint
  cases st.patients pid2 with
  | none => exact h
  | some patient =>
    cases body.currentTime with
    | none => exact h
    | some currentTime =>
      dsimp only
      split
      · by_cases hk : body.newData.hasKeys <;> simp [hk] <;> exact h
      · split
        · exact saveCalculationLog_preserves_binding pid2 ts (by
            by_cases hk : body.newData.hasKeys <;> simp [hk] <;> exact h)
        · by_cases hk : body.newData.hasKeys <;> simp [hk] <;> exact h

theorem stepOp_preserves_binding {c : Collabs σ} {st : ServerState σ}
    {pid name : String} (op : ServerOp) (h : st.logFileMap pid = some name) :
    (stepOp c st op).logFileMap pid = some name := by
  cases op with
  | initOp pid2 body now =>
    dsimp only [stepOp, initializeEndpoint]
    cases body.profile
    · exact h
    · exact h
  | calcOp pid2 body now ts =>
    exact calculateEndpoint_preserves_binding pid2 body now ts h
  | delOp pid2 =>
    dsimp only [stepOp, deleteEndpoint]
    cases st.patients pid2
    · exact h
    · exact h

theorem runOps_preserves_binding {c : Collabs σ} {pid name : String} :
    ∀ (ops : List ServerOp) (st : ServerState σ),
      st.logFileMap pid = some name → (runOps c st ops).logFileMap pid = some name
  | [], _, h => h
  | op :: ops, _st, h =>
    runOps_preserves_binding ops _ (stepOp_preserves_binding op h)

/-! ### Facts about `streamMax` -/

theorem le_foldl_max : ∀ (l : List Int) (a : Int), a ≤ l.foldl max a
  | [], _ => le_refl _
  | x :: xs, a => le_trans (le_max_left a x) (le_foldl_max xs (max a x))

theorem foldl_max_le : ∀ (l : List Int) (a b : Int),
    a ≤ b → (∀ x ∈ l, x ≤ b) → l.foldl max a ≤ b
  | [], _, _, ha, _ => ha
  | x :: xs, a, b, ha, hx => by
    show xs.foldl max (max a x) ≤ b
    exact foldl_max_le xs (max a x) b
      (max_le ha (hx x (List.mem_cons_self x xs)))
      (fun y hy => hx y (List.mem_cons_of_mem x hy))

theorem le_foldl_max_of_mem : ∀ (l : List Int) (x a : Int), x ∈ l → x ≤ l.foldl max a
  | [], x, _, h => absurd h (List.not_mem_nil x)
  | y :: ys, x, a, h => by
    rcases List.mem_cons.mp h with h | h
    · subst h
      show x ≤ ys.foldl max (max a x)
      exact le_trans (le_max_right a x) (le_foldl_max ys (max a x))
    · show x ≤ ys.foldl max (max a y)
      exact le_foldl_max_of_mem ys x (max a y) h

theorem le_streamMax_of_mem {l : List Int} {x : Int} (h : x ∈ l) : x ≤ streamMax l := by
  cases l with
  | nil => cases h
  | cons y ys =>
    rcases List.mem_cons.mp h with h | h
    · subst h; exact le_foldl_max ys x
    · exact le_foldl_max_of_mem ys x y h

theorem streamMax_le {l : List Int} {b : Int} (hne : l ≠ []) (h : ∀ x ∈ l, x ≤ b) :
    streamMax l ≤ b := by
  cases l with
  | nil => exact absurd rfl hne
  | cons y ys =>
    exact foldl_max_le ys y b (h y (List.mem_cons_self y ys))
      (fun x hx => h x (List.mem_cons_of_mem y hx))

/-! ### Claim-side notions: the newest ordering key and the sortedness
invariant -/

/-- All ordering keys of a history, across the three streams. -/
def historyKeys (h : History) : List Int :=
  h.glucose.map GlucoseEntry.date ++ h.pump.map PumpEvent.timestampMs ++
    h.carbs.map CarbEntry.timestampMs

/-- The maximum ordering key across the three streams (the claim's
`newestTime`); `0` when all streams are empty. -/
def newestKey (h : History) : Int := streamMax (historyKeys h)

/-- Each of the three streams is sorted newest-first. -/
def HistorySorted (h : History) : Prop :=
  SortedDescBy GlucoseEntry.date h.glucose ∧
  SortedDescBy PumpEvent.timestampMs h.pump ∧
  SortedDescBy CarbEntry.timestampMs h.carbs

theorem glucose_le_newestTimeOf (h : History) (hne : ¬(h.glucose.isEmpty = true)) :
    streamMax (h.glucose.map GlucoseEntry.date) ≤ newestTimeOf h := by
  unfold newestTimeOf
  dsimp only
  split_ifs
  all_goals first
    | exact absurd (by assumption) hne
    | simp [le_max_iff]

theorem pump_le_newestTimeOf (h : History) (hne : ¬(h.pump.isEmpty = true)) :
    streamMax (h.pump.map PumpEvent.timestampMs) ≤ newestTimeOf h := by
  unfold newestTimeOf
  dsimp only
  split_ifs
  all_goals first
    | exact absurd (by assumption) hne
    | simp [le_max_iff]

theorem carbs_le_newestTimeOf (h : History) (hne : ¬(h.carbs.isEmpty = true)) :
    streamMax (h.carbs.map CarbEntry.timestampMs) ≤ newestTimeOf h := by
  unfold newestTimeOf
  dsimp only
  split_ifs
  all_goals first
    | exact absurd (by assumption) hne
    | simp [le_max_iff]

theorem newestTimeOf_le (h : History) : newestTimeOf h ≤ max 0 (newestKey h) := by
  have hg : ¬(h.glucose.isEmpty = true) →
      streamMax (h.glucose.map GlucoseEntry.date) ≤ newestKey h := by
    intro hne
    refine streamMax_le ?_ ?_
    · intro he
      exact hne (List.isEmpty_iff.mpr (List.map_eq_nil_iff.mp he))
    · intro x hx
      exact le_streamMax_of_mem
        (List.mem_append_left _ (List.mem_append_left _ hx))
  have hp : ¬(h.pump.isEmpty = true) →
      streamMax (h.pump.map PumpEvent.timestampMs) ≤ newestKey h := by
    intro hne
    refine streamMax_le ?_ ?_
    · intro he
      exact hne (List.isEmpty_iff.mpr (List.map_eq_nil_iff.mp he))
    · intro x hx
      exact le_streamMax_of_mem
        (List.mem_append_left _ (List.mem_append_right _ hx))
  have hc : ¬(h.carbs.isEmpty = true) →
      streamMax (h.carbs.map CarbEntry.timestampMs) ≤ newestKey h := by
    intro hne
    refine streamMax_le ?_ ?_
    · intro he
      exact hne (List.isEmpty_iff.mpr (List.map_eq_nil_iff.mp he))
    · intro x hx
      exact le_streamMax_of_mem (List.mem_append_right _ hx)
  unfold newestTimeOf
  dsimp only
  split_ifs
  all_goals repeat apply max_le
  all_goals first
    | exact le_max_left 0 _
    | exact le_trans (hg (by assumption)) (le_max_right 0 _)
    | exact le_trans (hp (by assumption)) (le_max_right 0 _)
    | exact le_trans (hc (by assumption)) (le_max_right 0 _)

theorem newestTimeOf_eq_newestKey (h : History) (hpos : 0 < newestKey h) :
    newestTimeOf h = newestKey h := by
  have hkeys_ne : historyKeys h ≠ [] := by
    intro he
    rw [newestKey, he] at hpos
    exact absurd hpos (by decide)
  have hlb : newestKey h ≤ newestTimeOf h := by
    refine streamMax_le hkeys_ne ?_
    intro x hx
    have hx' : x ∈ h.glucose.map GlucoseEntry.date ++ h.pump.map PumpEvent.timestampMs ++
        h.carbs.map CarbEntry.timestampMs := hx
    rcases List.mem_append.mp hx' with hgp | hxc
    · rcases List.mem_append.mp hgp with hxg | hxp
      · refine le_trans (le_streamMax_of_mem hxg) (glucose_le_newestTimeOf h ?_)
        intro hE
        rw [List.isEmpty_iff.mp hE] at hxg
        cases hxg
      · refine le_trans (le_streamMax_of_mem hxp) (pump_le_newestTimeOf h ?_)
        intro hE
        rw [List.isEmpty_iff.mp hE] at hxp
        cases hxp
    · refine le_trans (le_streamMax_of_mem hxc) (carbs_le_newestTimeOf h ?_)
      intro hE
      rw [List.isEmpty_iff.mp hE] at hxc
      cases hxc
  have hub := newestTimeOf_le h
  rw [max_eq_right (le_of_lt hpos)] at hub
  exact le_antisymm hub hlb

theorem sortHistoryArrays_sorted (h : History) : HistorySorted (sortHistoryArrays h) :=
  ⟨sortedDescBy_sortByKeyDesc _ _, sortedDescBy_sortByKeyDesc _ _,
   sortedDescBy_sortByKeyDesc _ _⟩

theorem cleanupOldData_sorted {p : Patient σ} (h : HistorySorted p.history) :
    HistorySorted (cleanupOldData p).history := by
  unfold cleanupOldData
  dsimp only
  split
  · exact h
  · split
    · exact h
    · exact ⟨h.1.filter _, h.2.1.filter _, h.2.2.filter _⟩

theorem addNewData_sorted (p : Patient σ) (nd : NewData) (now : String) :
    HistorySorted (addNewData p nd now).history := by
  unfold addNewData
  dsimp only
  split
  · exact cleanupOldData_sorted (sortHistoryArrays_sorted _)
  · exact sortHistoryArrays_sorted _

/-! ### Concrete fixtures used by witnesses and counterexamples -/

/-- A well-formed profile (after the `basicPatient` test profile). -/
def profileBasic : Profile :=
  { carb_ratio := some 10, sens := some 50, dia := some 6,
    max_bg := some 120, min_bg := some 80, current_basal := some 1 }

/-- A profile whose carb ratio is 2 — below the documented bound of 3. -/
def profileCr2 : Profile :=
  { carb_ratio := some 2, sens := some 50, dia := some 6,
    max_bg := some 120, min_bg := some 80, current_basal := some 1 }

/-- A benign collaborator assignment for concrete runs. -/
def collabUnit : Collabs Unit :=
  { detectSensitivity := fun _ => .ok { ratio := 1, newisf := none }
    generateIOB := fun _ => .ok [{ iob := 2, activity := 0 }]
    generateMeal := fun _ => .ok { carbs := 7, mealCOB := 33, reason := none }
    getLastGlucose := fun gs => .ok (gs.head?.map (fun g => { glucose := g.glucose, delta := 0 }))
    determine_basal := fun _ _ _ _ _ _ _ _ => .ok ((), "diag") }

/-- A collaborator assignment whose every entry point throws, so an
invocation is observable as the propagated error. -/
def collabProbe : Collabs Unit :=
  { detectSensitivity := fun _ => .error "autosens collaborator invoked"
    generateIOB := fun _ => .error "iob collaborator invoked"
    generateMeal := fun _ => .error "meal collaborator invoked"
    getLastGlucose := fun _ => .error "glucose collaborator invoked"
    determine_basal := fun _ _ _ _ _ _ _ _ => .error "decision collaborator invoked" }

/-- The process state at startup with an empty log directory. -/
def emptyState (σ : Type) : ServerState σ :=
  { patients := fun _ => none, logFileMap := fun _ => none, files := [] }

/-! ### C10 — status reporting of cached COB/IOB -/

/-- C10: for every session whose cached meal result has `mealCOB = 0`, the
status query reports `currentCOB` as `null`, exactly as for a session with
no cached meal result; and `currentIOB` is `null` whenever no cached IOB
result exists. -/
theorem c10_status_zero_cob_reads_null (σ : Type) (p : Patient σ) (m : MealResult) :
    (p.currentState.cachedMeal = some m → m.mealCOB = 0 →
      (getPatientStatus p).currentCOB = none) ∧
    (p.currentState.cachedMeal = none → (getPatientStatus p).currentCOB = none) ∧
    (p.currentState.cachedIOB = none → (getPatientStatus p).currentIOB = none) := by
  refine ⟨?_, ?_, ?_⟩
  · intro h hm
    simp [getPatientStatus, h, hm]
  · intro h
    simp [getPatientStatus, h]
  · intro h
    simp [getPatientStatus, h]

/-- A session with a cached zero-COB meal result and no cached IOB. -/
def patientZeroCob : Patient Unit :=
  { profile := profileBasic
    currentState :=
      { cachedMeal := some { carbs := 5, mealCOB := 0, reason := none }
        cachedIOB := none } }

theorem c10_status_zero_cob_reads_null_witness :
    (getPatientStatus patientZeroCob).currentCOB = none ∧
    (getPatientStatus patientZeroCob).currentIOB = none :=
  ⟨(c10_status_zero_cob_reads_null Unit patientZeroCob
      { carbs := 5, mealCOB := 0, reason := none }).1 rfl rfl,
   (c10_status_zero_cob_reads_null Unit patientZeroCob
      { carbs := 5, mealCOB := 0, reason := none }).2.2 rfl⟩

/-! ### C5 — meal degradation below 36 glucose samples -/

/-- C5: whenever the session's glucose stream has fewer than 36 samples and
the meal stage produces a result, that result has `mealCOB` exactly 0 and a
non-empty reason, regardless of the meal collaborator's output. -/
theorem c5_meal_degraded_below_36 (σ : Type) (c : Collabs σ) (p : Patient σ)
    (clock : Int) (r : MealResult) (hlen : p.history.glucose.length < 36)
    (h : calculateMealForPatient c p clock = .ok r) :
    r.mealCOB = 0 ∧ ∃ s, r.reason = some s ∧ s ≠ "" := by
  unfold calculateMealForPatient at h
  dsimp only at h
  split at h
  · exact Except.noConfusion h
  · rw [if_pos hlen] at h
    injection h with h'
    subst h'
    exact ⟨rfl, "not enough glucose data to calculate carb absorption", rfl, by decide⟩

/-- A session with an empty glucose stream. -/
def patientNoGlucose : Patient Unit := { profile := profileBasic }

theorem c5_meal_degraded_below_36_witness :
    patientNoGlucose.history.glucose.length < 36 ∧
    calculateMealForPatient collabUnit patientNoGlucose 0 =
      .ok { carbs := 7, mealCOB := 0,
            reason := some "not enough glucose data to calculate carb absorption" } ∧
    ({ carbs := 7, mealCOB := 0,
       reason := some "not enough glucose data to calculate carb absorption" } : MealResult).mealCOB = 0 ∧
    ∃ s, ({ carbs := 7, mealCOB := 0,
            reason := some "not enough glucose data to calculate carb absorption" } : MealResult).reason
          = some s ∧ s ≠ "" :=
  ⟨by decide, rfl,
   c5_meal_degraded_below_36 Unit collabUnit patientNoGlucose 0 _ (by decide) rfl⟩

/-! ### C6 — carb-ratio guard of the meal stage -/

/-- A session whose profile carries carb ratio 2. -/
def patientCr2 : Patient Unit := { profile := profileCr2 }

/-- C6 counterexample: the claim says every meal-stage invocation with carb
ratio < 3 returns a degraded result without invoking the meal collaborator
and without raising.  The server pipeline's meal stage
(`calculateMealForPatient`, src/server.js lines 354–378) has no such guard:
with carb ratio 2 it still calls the collaborator, and a throwing
collaborator makes the stage raise. -/
theorem c6_guard_counterexample :
    profileCr2.carb_ratio = some 2 ∧ (2 : Rat) < 3 ∧
    calculateMealForPatient collabProbe patientCr2 0 =
      .error "meal collaborator invoked" :=
  ⟨rfl, by decide, rfl⟩

/-- C6 amended: the carb-ratio guard lives in `oref0_meal`
(src/unnamed/part_000, lines 222–231): with carb ratio undefined or < 3 it
returns zero carbs and zero COB with a reason naming the out-of-bounds
ratio, without invoking the meal collaborator (the outcome is independent
of the collaborator) and without raising. -/
theorem c6_oref0_meal_guard (σ : Type) (c c' : Collabs σ) (ph : List PumpEvent)
    (profile : Profile) (clock : Int) (glucose : List GlucoseEntry)
    (basalprofile : List BasalEntry) (carbs : List CarbEntry)
    (h : profile.carb_ratio = none ∨ ∃ r, profile.carb_ratio = some r ∧ r < 3) :
    oref0_meal c ph profile clock glucose basalprofile carbs =
      .ok { carbs := 0, mealCOB := 0,
            reason := some ("carb_ratio " ++ ratioRepr profile.carb_ratio ++ " out of bounds") } ∧
    oref0_meal c ph profile clock glucose basalprofile carbs =
      oref0_meal c' ph profile clock glucose basalprofile carbs := by
  have hg : (match profile.carb_ratio with
             | none => true
             | some r => decide (r < 3)) = true := by
    rcases h with h | ⟨r, hr, hlt⟩
    · rw [h]
    · rw [hr]
      simpa using hlt
  constructor
  · unfold oref0_meal
    rw [if_pos hg]
  · unfold oref0_meal
    rw [if_pos hg, if_pos hg]

theorem c6_oref0_meal_guard_witness :
    oref0_meal collabProbe [] profileCr2 0 [] [] [] =
      .ok { carbs := 0, mealCOB := 0,
            reason := some ("carb_ratio " ++ ratioRepr profileCr2.carb_ratio ++ " out of bounds") } ∧
    oref0_meal collabProbe [] profileCr2 0 [] [] [] =
      oref0_meal collabUnit [] profileCr2 0 [] [] [] :=
  c6_oref0_meal_guard Unit collabProbe collabUnit [] profileCr2 0 [] [] []
    (Or.inr ⟨2, rfl, by decide⟩)

/-! ### C4 — which autosens value reaches the decision collaborator -/

/-- A collaborator assignment over suggestion type `Option Autosens` whose
decision stage echoes back the autosens argument it was handed, making the
value delivered to `determine_basal` observable as the suggestion. -/
def collabEcho : Collabs (Option Autosens) :=
  { detectSensitivity := fun _ => .error "unused"
    generateIOB := fun _ => .ok []
    generateMeal := fun _ => .ok { carbs := 0, mealCOB := 0, reason := none }
    getLastGlucose := fun _ => .ok (some { glucose := 100, delta := 0 })
    determine_basal := fun _ _ _ _ autosensArg _ _ _ => .ok (autosensArg, "") }

/-- A session with a single glucose sample, so the autosens stage
short-circuits deterministically to ratio 1. -/
def patientEcho : Patient (Option Autosens) :=
  { profile := profileBasic
    history := { glucose := [{ date := 1704110700000, glucose := 115 }] } }

/-- C4: evaluating `calculateBasalForPatient` at a calculate request with
default options (no `autosens` key, autosens enabled by default) shows that
`determine_basal` received `none` — the raw `options.autosens` of
src/server.js line 447 — while the pipeline's autosens stage produced
`{ratio := 1, newisf := some 50}`, which is only echoed in the response.
The claim (and the spec, §4.4 stage 5) says the decision collaborator is
invoked with the autosens result the pipeline computed. -/
theorem c4_decision_receives_options_autosens :
    (calculateBasalForPatient collabEcho patientEcho 1704110700000 {}).toOption.map
        (fun pr => (pr.2.suggestion, pr.2.autosens)) =
      some (none, some { ratio := 1, newisf := some 50 }) := rfl

/-! ### C3 — profile validation at session creation -/

/-- An initialize body carrying the carb-ratio-2 profile. -/
def initBodyCr2 : InitBody := { profile := some profileCr2 }

/-- C3 counterexample: the claim says initializing with carb ratio 2 is
rejected with a 400 ValidationError and no session is created.  The
initialize endpoint (src/server.js lines 481–502) only checks that a
profile is present; with carb ratio 2 it answers 201 and installs the
session. -/
theorem c3_validation_counterexample :
    profileCr2.carb_ratio = some 2 ∧ (2 : Rat) < 3 ∧
    (initializeEndpoint (emptyState Unit) "p1" initBodyCr2 "T0").2.status = 201 ∧
    (initializeEndpoint (emptyState Unit) "p1" initBodyCr2 "T0").1.patients "p1" =
      some (createPatient Unit profileCr2 {} {} "T0") :=
  ⟨rfl, by decide, rfl, rfl⟩

/-- C3 amended: session creation validates only that a profile is present:
a missing profile is rejected with 400 and the store is unchanged; any
supplied profile — regardless of carb ratio, sensitivity or any other field
— is accepted with 201 and the session is created/replaced wholesale, with
no constraint checking. -/
theorem c3_initialize_no_validation (σ : Type) (st : ServerState σ) (pid : String)
    (body : InitBody) (now : String) :
    (body.profile = none →
      initializeEndpoint st pid body now = (st, .badRequest "Profile is required")) ∧
    (∀ pr, body.profile = some pr →
      (initializeEndpoint st pid body now).2 = .created pid ∧
      (initializeEndpoint st pid body now).1.patients pid =
        some (createPatient σ pr body.initialData body.settings now) ∧
      (∀ i, i ≠ pid → (initializeEndpoint st pid body now).1.patients i = st.patients i)) := by
  constructor
  · intro h
    unfold initializeEndpoint
    rw [h]
  · intro pr h
    unfold initializeEndpoint
    rw [h]
    refine ⟨rfl, by simp, ?_⟩
    intro i hi
    simp [hi]

theorem c3_initialize_no_validation_witness :
    (initializeEndpoint (emptyState Unit) "p1" initBodyCr2 "T0").2 =
      HttpResponse.created "p1" ∧
    (initializeEndpoint (emptyState Unit) "p1" initBodyCr2 "T0").1.patients "p1" =
      some (createPatient Unit profileCr2 initBodyCr2.initialData initBodyCr2.settings "T0") ∧
    (initializeEndpoint (emptyState Unit) "p2" { profile := none } "T0").1 = emptyState Unit :=
  ⟨((c3_initialize_no_validation Unit (emptyState Unit) "p1" initBodyCr2 "T0").2
      profileCr2 rfl).1,
   ((c3_initialize_no_validation Unit (emptyState Unit) "p1" initBodyCr2 "T0").2
      profileCr2 rfl).2.1,
   by rw [(c3_initialize_no_validation Unit (emptyState Unit) "p2"
        { profile := none } "T0").1 rfl]⟩

/-! ### C2 — cached state committed only by completed runs -/

/-- C2: for a calculate request on an existing session, if the pipeline
fails at any stage the session left in the store still carries the cached
IOB/meal/lastCalculation of the last completed run and the request answers
500; if every stage completes, the store carries the pipeline's committed
session and the request answers 200. -/
theorem c2_atomic_cache_commit (σ : Type) (c : Collabs σ) (st : ServerState σ)
    (pid : String) (body : CalcBody) (now ts : String) (p : Patient σ) (t : Int)
    (hp : st.patients pid = some p) (ht : body.currentTime = some t) :
    (∀ e, calculateBasalForPatient c
        (if body.newData.hasKeys then addNewData p body.newData now else p) t
        body.options = .error e →
      ∃ q, (calculateEndpoint c st pid body now ts).1.patients pid = some q ∧
        q.currentState.cachedIOB = p.currentState.cachedIOB ∧
        q.currentState.cachedMeal = p.currentState.cachedMeal ∧
        q.currentState.lastCalculation = p.currentState.lastCalculation ∧
        (calculateEndpoint c st pid body now ts).2.status = 500) ∧
    (∀ p' r, calculateBasalForPatient c
        (if body.newData.hasKeys then addNewData p body.newData now else p) t
        body.options = .ok (p', r) →
      (calculateEndpoint c st pid body now ts).1.patients pid = some p' ∧
      (calculateEndpoint c st pid body now ts).2 = .ok r) := by
  constructor
  · intro e he
    refine ⟨if body.newData.hasKeys then addNewData p body.newData now else p, ?_⟩
    simp only [calculateEndpoint, hp, ht, he]
    by_cases hk : body.newData.hasKeys
    · simp [hk, addNewData_currentState, HttpResponse.status]
    · simp [hk, hp, HttpResponse.status]
  · intro p' r hok
    simp only [calculateEndpoint, hp, ht, hok]
    by_cases hl : body.options.enableLogging ≠ some false
    · simp [hl, saveCalculationLog_patients]
    · simp [hl]

/-- A session holding previously committed cache values. -/
def patientCached : Patient Unit :=
  { profile := profileBasic
    currentState :=
      { cachedIOB := some [{ iob := 2, activity := 0 }]
        cachedMeal := some { carbs := 4, mealCOB := 9, reason := none }
        lastCalculation := some { timestamp := 11, suggestion := (), stderrLog := "old" } } }

/-- A store holding only `patientCached` under id `"p"`. -/
def stateCached : ServerState Unit :=
  { patients := fun i => if i = "p" then some patientCached else none
    logFileMap := fun _ => none
    files := [] }

theorem c2_atomic_cache_commit_witness :
    ∃ q, (calculateEndpoint collabProbe stateCached "p"
            { currentTime := some 5 } "N" "TS").1.patients "p" = some q ∧
      q.currentState.cachedIOB = patientCached.currentState.cachedIOB ∧
      q.currentState.cachedMeal = patientCached.currentState.cachedMeal ∧
      q.currentState.lastCalculation = patientCached.currentState.lastCalculation ∧
      (calculateEndpoint collabProbe stateCached "p"
          { currentTime := some 5 } "N" "TS").2.status = 500 :=
  (c2_atomic_cache_commit Unit collabProbe stateCached "p"
      { currentTime := some 5 } "N" "TS" patientCached 5 (by rfl) rfl).1
    "iob collaborator invoked" (by rfl)

/-! ### C9 — a calculate request with keyless newData leaves everything but
the cached results untouched -/

/-- C9: when `newData` has no keys, the calculate request performs no
ingestion, re-sorting or cleanup: the session's three history streams,
`lastUpdated`, profile, settings, `createdAt` and temp basal are all
unchanged; only the pipeline-committed cached fields may differ. -/
theorem c9_keyless_newdata_frame (σ : Type) (c : Collabs σ) (st : ServerState σ)
    (pid : String) (body : CalcBody) (now ts : String) (p p' : Patient σ)
    (hnd : body.newData.hasKeys = false) (hp : st.patients pid = some p)
    (h' : (calculateEndpoint c st pid body now ts).1.patients pid = some p') :
    p'.history = p.history ∧ p'.lastUpdated = p.lastUpdated ∧
    p'.profile = p.profile ∧ p'.settings = p.settings ∧ p'.createdAt = p.createdAt ∧
    p'.currentState.tempBasal = p.currentState.tempBasal := by
  cases hct : body.currentTime with
  | none =>
    simp only [calculateEndpoint, hp, hct] at h'
    injection h' with h''
    subst h''
    exact ⟨rfl, rfl, rfl, rfl, rfl, rfl⟩
  | some t =>
    cases hcb : calculateBasalForPatient c p t body.options with
    | error e =>
      simp [calculateEndpoint, hp, hct, hnd, hcb] at h'
      rw [h']
      exact ⟨rfl, rfl, rfl, rfl, rfl, rfl⟩
    | ok pr =>
      obtain ⟨q, r⟩ := pr
      have hq := calcBasal_ok_inv hcb
      by_cases hl : body.options.enableLogging ≠ some false
      · simp [calculateEndpoint, hp, hct, hnd, hcb, hl, saveCalculationLog_patients] at h'
        rw [← h']
        exact ⟨hq.1, hq.2.2.2.2.1, hq.2.1, hq.2.2.1, hq.2.2.2.1, hq.2.2.2.2.2⟩
      · simp [calculateEndpoint, hp, hct, hnd, hcb, hl, saveCalculationLog_patients] at h'
        rw [← h']
        exact ⟨hq.1, hq.2.2.2.2.1, hq.2.1, hq.2.2.1, hq.2.2.2.1, hq.2.2.2.2.2⟩

theorem c9_keyless_newdata_frame_witness :
    ∃ p', (calculateEndpoint collabUnit stateCached "p"
            { currentTime := some 5, newData := {}, options := {} } "N" "TS").1.patients "p"
          = some p' ∧
      p'.history = patientCached.history ∧ p'.lastUpdated = patientCached.lastUpdated ∧
      p'.profile = patientCached.profile ∧ p'.settings = patientCached.settings ∧
      p'.createdAt = patientCached.createdAt ∧
      p'.currentState.tempBasal = patientCached.currentState.tempBasal := by
  rcases hEq : (calculateEndpoint collabUnit stateCached "p"
      { currentTime := some 5, newData := {}, options := {} } "N" "TS").1.patients "p"
    with _ | p'
  · exact absurd hEq (by decide)
  · exact ⟨p', rfl, c9_keyless_newdata_frame Unit collabUnit stateCached "p"
      { currentTime := some 5, newData := {}, options := {} } "N" "TS"
      patientCached p' rfl (by rfl) hEq⟩

/-! ### C7 — the three streams stay sorted newest-first across mutations -/

/-- C7: after each of the three mutating operations — session creation,
data ingestion, and a calculate request — every session's three history
streams are sorted non-increasing by their ordering keys (for the calculate
request, provided the stored sessions were sorted before it). -/
theorem c7_streams_sorted (σ : Type) (profile : Profile) (initialData : InitialData)
    (settingsIn : SettingsInput) (now : String) (p : Patient σ) (nd : NewData)
    (c : Collabs σ) (st : ServerState σ) (pid : String) (body : CalcBody) (ts : String) :
    HistorySorted (createPatient σ profile initialData settingsIn now).history ∧
    HistorySorted (addNewData p nd now).history ∧
    (∀ pid', (∀ q, st.patients pid' = some q → HistorySorted q.history) →
      ∀ q', (calculateEndpoint c st pid body now ts).1.patients pid' = some q' →
        HistorySorted q'.history) := by
  refine ⟨sortHistoryArrays_sorted _, addNewData_sorted p nd now, ?_⟩
  intro pid' hsorted q' hq'
  cases hps : st.patients pid with
  | none =>
    simp only [calculateEndpoint, hps] at hq'
    exact hsorted q' hq'
  | some patient =>
    cases hct : body.currentTime with
    | none =>
      simp only [calculateEndpoint, hps, hct] at hq'
      exact hsorted q' hq'
    | some t =>
      by_cases hk : body.newData.hasKeys = true
      · cases hcb : calculateBasalForPatient c (addNewData patient body.newData now)
            t body.options with
        | error e =>
          by_cases hpp : pid' = pid
          · subst hpp
            simp [calculateEndpoint, hps, hct, hk, hcb] at hq'
            rw [← hq']
            exact addNewData_sorted patient body.newData now
          · simp [calculateEndpoint, hps, hct, hk, hcb, hpp] at hq'
            exact hsorted q' hq'
        | ok pr =>
          obtain ⟨q, r⟩ := pr
          by_cases hpp : pid' = pid
          · subst hpp
            by_cases hl : body.options.enableLogging ≠ some false
            · simp [calculateEndpoint, hps, hct, hk, hcb, hl,
                saveCalculationLog_patients] at hq'
              rw [← hq', HistorySorted, (calcBasal_ok_inv hcb).1]
              exact addNewData_sorted patient body.newData now
            · simp [calculateEndpoint, hps, hct, hk, hcb, hl] at hq'
              rw [← hq', HistorySorted, (calcBasal_ok_inv hcb).1]
              exact addNewData_sorted patient body.newData now
          · by_cases hl : body.options.enableLogging ≠ some false
            · simp [calculateEndpoint, hps, hct, hk, hcb, hl, hpp,
                saveCalculationLog_patients] at hq'
              exact hsorted q' hq'
            · simp [calculateEndpoint, hps, hct, hk, hcb, hl, hpp] at hq'
              exact hsorted q' hq'
      · cases hcb : calculateBasalForPatient c patient t body.options with
        | error e =>
          simp [calculateEndpoint, hps, hct, hk, hcb] at hq'
          exact hsorted q' hq'
        | ok pr =>
          obtain ⟨q, r⟩ := pr
          by_cases hpp : pid' = pid
          · subst hpp
            by_cases hl : body.options.enableLogging ≠ some false
            · simp [calculateEndpoint, hps, hct, hk, hcb, hl,
                saveCalculationLog_patients] at hq'
              rw [← hq', HistorySorted, (calcBasal_ok_inv hcb).1]
              exact hsorted patient hps
            · simp [calculateEndpoint, hps, hct, hk, hcb, hl] at hq'
              rw [← hq', HistorySorted, (calcBasal_ok_inv hcb).1]
              exact hsorted patient hps
          · by_cases hl : body.options.enableLogging ≠ some false
            · simp [calculateEndpoint, hps, hct, hk, hcb, hl, hpp,
                saveCalculationLog_patients] at hq'
              exact hsorted q' hq'
            · simp [calculateEndpoint, hps, hct, hk, hcb, hl, hpp] at hq'
              exact hsorted q' hq'

theorem c7_streams_sorted_witness :
    HistorySorted ((createPatient Unit profileBasic
      { glucoseHistory := some [{ date := 100, glucose := 90 }, { date := 500, glucose := 95 }] }
      {} "T").history) ∧
    HistorySorted ((addNewData patientCached
      { glucoseReadings := some [{ date := 700, glucose := 99 }] } "T").history) ∧
    (∃ q', (calculateEndpoint collabUnit stateCached "p"
        { currentTime := some 5 } "T" "TS").1.patients "p" = some q' ∧
      HistorySorted q'.history) := by
  have h := c7_streams_sorted Unit profileBasic
    { glucoseHistory := some [{ date := 100, glucose := 90 }, { date := 500, glucose := 95 }] }
    {} "T" patientCached { glucoseReadings := some [{ date := 700, glucose := 99 }] }
    collabUnit stateCached "p" { currentTime := some 5 } "TS"
  refine ⟨h.1, h.2.1, ?_⟩
  rcases hEq : (calculateEndpoint collabUnit stateCached "p"
      { currentTime := some 5 } "T" "TS").1.patients "p" with _ | q'
  · exact absurd hEq (by decide)
  · refine ⟨q', rfl, ?_⟩
    refine h.2.2 "p" ?_ q' hEq
    intro q hq
    have hq' : some patientCached = some q := hq
    injection hq' with h''
    rw [← h'']
    exact ⟨List.Pairwise.nil, List.Pairwise.nil, List.Pairwise.nil⟩

/-! ### C8 — per-id audit-log file binding is process-stable -/

/-- C8: once a log file name is bound to a session id, any sequence of
requests — initializations, calculations, deletions — leaves the binding in
place, and a subsequent log write for that id resolves to and appends to the
bound file; a first write for an unbound id binds the name it resolves
(canonical when the canonical file did not yet exist, the timestamp-suffixed
variant otherwise). -/
theorem c8_log_name_binding (σ : Type) (c : Collabs σ) (st : ServerState σ)
    (ops : List ServerOp) (pid name : String) (h : st.logFileMap pid = some name) :
    (runOps c st ops).logFileMap pid = some name ∧
    (∀ ts, (saveCalculationLog (runOps c st ops) pid ts).2 = name ∧
      (saveCalculationLog (runOps c st ops) pid ts).1.files =
        bumpFile (runOps c st ops).files name) ∧
    (∀ (st2 : ServerState σ) (ts2 : String), st2.logFileMap pid = none →
      (saveCalculationLog st2 pid ts2).1.logFileMap pid =
        some (saveCalculationLog st2 pid ts2).2 ∧
      (fsExists st2.files (canonicalLogName pid) = false →
        (saveCalculationLog st2 pid ts2).2 = canonicalLogName pid) ∧
      (fsExists st2.files (canonicalLogName pid) = true →
        (saveCalculationLog st2 pid ts2).2 = suffixedLogName pid ts2)) := by
  have hb := @runOps_preserves_binding σ c pid name ops st h
  refine ⟨hb, ?_, ?_⟩
  · intro ts
    unfold saveCalculationLog
    rw [hb]
    exact ⟨rfl, rfl⟩
  · intro st2 ts2 h2
    unfold saveCalculationLog
    rw [h2]
    dsimp only
    refine ⟨by simp, ?_, ?_⟩
    · intro hf
      rw [if_neg (by simp [hf])]
    · intro hf
      rw [if_pos hf]

/-- A process state in which id `"p"` is already bound to its canonical log
file. -/
def stateBound : ServerState Unit :=
  { patients := fun i => if i = "p" then some patientCached else none
    logFileMap := fun i => if i = "p" then some "p_calculations.log" else none
    files := [("p_calculations.log", 1)] }

theorem c8_log_name_binding_witness :
    (runOps collabUnit stateBound
      [ServerOp.delOp "p", ServerOp.initOp "p" initBodyCr2 "T2"]).logFileMap "p" =
      some "p_calculations.log" ∧
    (saveCalculationLog (runOps collabUnit stateBound
      [ServerOp.delOp "p", ServerOp.initOp "p" initBodyCr2 "T2"]) "p" "TS").2 =
      "p_calculations.log" :=
  ⟨(c8_log_name_binding Unit collabUnit stateBound
      [ServerOp.delOp "p", ServerOp.initOp "p" initBodyCr2 "T2"]
      "p" "p_calculations.log" (by rfl)).1,
   ((c8_log_name_binding Unit collabUnit stateBound
      [ServerOp.delOp "p", ServerOp.initOp "p" initBodyCr2 "T2"]
      "p" "p_calculations.log" (by rfl)).2.1 "TS").1⟩

/-! ### C1 — recency-anchored retention -/

/-- The retention behaviour claimed for one cleanup pass, with the cutoff
spelled out: window = effective retention value (a falsy 0 becomes 1) times
the unit length, where an empty/missing unit is read as weeks and any other
unrecognized unit as hours; every remaining item's key is ≥ cutoff and
every removed item's key was < cutoff, each stream being filtered to keys
≥ cutoff. -/
def RetentionSpec (p : Patient σ) : Prop :=
  let v : Rat := if p.settings.historyRetentionValue = 0 then 1
                 else p.settings.historyRetentionValue
  let per : String := if p.settings.historyRetentionPeriod = "" then "weeks"
                      else p.settings.historyRetentionPeriod
  let u : Rat := if per = "hours" then 3600000 else if per = "days" then 86400000
    else if per = "weeks" then 604800000 else if per = "months" then 2592000000
    else 3600000
  let cutoff : Rat := (newestKey p.history : Rat) - v * u
  (cleanupOldData p).history.glucose =
    p.history.glucose.filter (fun g => cutoff ≤ (g.date : Rat)) ∧
  (cleanupOldData p).history.pump =
    p.history.pump.filter (fun e => cutoff ≤ (e.timestampMs : Rat)) ∧
  (cleanupOldData p).history.carbs =
    p.history.carbs.filter (fun x => cutoff ≤ (x.timestampMs : Rat)) ∧
  (∀ g ∈ (cleanupOldData p).history.glucose, cutoff ≤ (g.date : Rat)) ∧
  (∀ g ∈ p.history.glucose, (g.date : Rat) < cutoff →
    g ∉ (cleanupOldData p).history.glucose) ∧
  (∀ e ∈ (cleanupOldData p).history.pump, cutoff ≤ (e.timestampMs : Rat)) ∧
  (∀ e ∈ p.history.pump, (e.timestampMs : Rat) < cutoff →
    e ∉ (cleanupOldData p).history.pump) ∧
  (∀ x ∈ (cleanupOldData p).history.carbs, cutoff ≤ (x.timestampMs : Rat)) ∧
  (∀ x ∈ p.history.carbs, (x.timestampMs : Rat) < cutoff →
    x ∉ (cleanupOldData p).history.carbs)

/-- C1 amended: a cleanup pass on a session whose maximum ordering key is
positive filters each stream to the claimed recency window (`RetentionSpec`);
on a session with all three streams empty it changes nothing.  (The claim's
unqualified form fails when the maximum key is ≤ 0, see the counterexample:
the code clamps `newestTime` at 0 and skips the pass.) -/
theorem c1_retention_cleanup (σ : Type) (p : Patient σ) :
    (p.history.glucose = [] ∧ p.history.pump = [] ∧ p.history.carbs = [] →
      cleanupOldData p = p) ∧
    (0 < newestKey p.history → RetentionSpec p) := by
  constructor
  · rintro ⟨h1, h2, h3⟩
    unfold cleanupOldData
    rw [if_pos (by simp [h1, h2, h3])]
  · intro hpos
    have hne' : ¬((p.history.glucose.isEmpty && p.history.pump.isEmpty &&
        p.history.carbs.isEmpty) = true) := by
      intro hE
      rw [Bool.and_eq_true, Bool.and_eq_true] at hE
      obtain ⟨⟨e1, e2⟩, e3⟩ := hE
      simp [newestKey, historyKeys, List.isEmpty_iff.mp e1, List.isEmpty_iff.mp e2,
        List.isEmpty_iff.mp e3, streamMax] at hpos
    have hN : newestTimeOf p.history = newestKey p.history :=
      newestTimeOf_eq_newestKey _ hpos
    have hN0 : ¬(newestTimeOf p.history = 0) := by
      rw [hN]
      exact ne_of_gt hpos
    have hclean : cleanupOldData p = { p with history :=
        { glucose := p.history.glucose.filter
            (fun g => retentionCutoff p.settings (newestTimeOf p.history) ≤ (g.date : Rat))
          pump := p.history.pump.filter
            (fun e => retentionCutoff p.settings (newestTimeOf p.history) ≤ (e.timestampMs : Rat))
          carbs := p.history.carbs.filter
            (fun x => retentionCutoff p.settings (newestTimeOf p.history) ≤ (x.timestampMs : Rat)) } } := by
      unfold cleanupOldData
      rw [if_neg hne']
      dsimp only
      rw [if_neg hN0]
    unfold RetentionSpec
    dsimp only
    have hcc : retentionCutoff p.settings (newestTimeOf p.history) =
        (newestKey p.history : Rat) -
          (if p.settings.historyRetentionValue = 0 then 1
           else p.settings.historyRetentionValue) *
          (if (if p.settings.historyRetentionPeriod = "" then "weeks"
               else p.settings.historyRetentionPeriod) = "hours" then (3600000 : Rat)
           else if (if p.settings.historyRetentionPeriod = "" then "weeks"
               else p.settings.historyRetentionPeriod) = "days" then 86400000
           else if (if p.settings.historyRetentionPeriod = "" then "weeks"
               else p.settings.historyRetentionPeriod) = "weeks" then 604800000
           else if (if p.settings.historyRetentionPeriod = "" then "weeks"
               else p.settings.historyRetentionPeriod) = "months" then 2592000000
           else 3600000) := by
      rw [hN]
      unfold retentionCutoff
      dsimp only
      split_ifs <;> rfl
    rw [hclean]
    dsimp only
    rw [hcc]
    refine ⟨rfl, rfl, rfl, ?_, ?_, ?_, ?_, ?_, ?_⟩
    · intro g hg
      exact of_decide_eq_true (List.mem_filter.mp hg).2
    · intro g _ hlt hmem
      exact absurd (of_decide_eq_true (List.mem_filter.mp hmem).2) (not_le.mpr hlt)
    · intro e he
      exact of_decide_eq_true (List.mem_filter.mp he).2
    · intro e _ hlt hmem
      exact absurd (of_decide_eq_true (List.mem_filter.mp hmem).2) (not_le.mpr hlt)
    · intro x hx
      exact of_decide_eq_true (List.mem_filter.mp hx).2
    · intro x _ hlt hmem
      exact absurd (of_decide_eq_true (List.mem_filter.mp hmem).2) (not_le.mpr hlt)

/-- A session with hours/1 retention and samples at 5000000 and 1000000 —
the second lies before the cutoff 1400000. -/
def patientRecent : Patient Unit :=
  { profile := profileBasic
    history := { glucose := [{ date := 5000000, glucose := 100 },
                             { date := 1000000, glucose := 90 }] }
    settings := { historyRetentionPeriod := "hours", historyRetentionValue := 1 } }

theorem c1_retention_cleanup_witness :
    (0 < newestKey patientRecent.history ∧ RetentionSpec patientRecent) ∧
    cleanupOldData patientNoGlucose = patientNoGlucose :=
  ⟨⟨by decide, (c1_retention_cleanup Unit patientRecent).2 (by decide)⟩,
   (c1_retention_cleanup Unit patientNoGlucose).1 ⟨rfl, rfl, rfl⟩⟩

/-- A session whose keys are all ≤ 0: hours/1 retention, samples at 0 and
−7200000. -/
def patientStale : Patient Unit :=
  { profile := profileBasic
    history := { glucose := [{ date := 0, glucose := 100 },
                             { date := -7200000, glucose := 90 }] }
    settings := { historyRetentionPeriod := "hours", historyRetentionValue := 1 } }

/-- C1 counterexample: with the newest key at 0 (`hours`/1 retention, so the
claim's cutoff is −3600000), the pass changes nothing — the code clamps
`newestTime` at 0 and skips — and the sample at −7200000, which the claim
says must be removed, remains with key < cutoff. -/
theorem c1_retention_cleanup_counterexample :
    newestKey patientStale.history = 0 ∧
    cleanupOldData patientStale = patientStale ∧
    (∃ g ∈ (cleanupOldData patientStale).history.glucose,
      g.date < newestKey patientStale.history - 1 * 3600000) :=
  ⟨by decide, by decide,
   ⟨{ date := -7200000, glucose := 90 }, by decide, by decide⟩⟩

end Oref
